import Mathlib

/-!
Verification of the sea-level-map tile server (src/main.go) against its
specification. The Go source is shallowly embedded: pure helpers become Lean
functions on `Int`/`Nat` (Go's 64-bit `int` arithmetic is modelled with an
explicit wrap at 2 ^ 64 where an addition can overflow, and Go's
truncating integer division is `Int.tdiv`); the stateful tile cache and
single-flight registry become explicit state passing; the upstream HTTP fetch
and the PNG encoder become oracle parameters returning success or failure.
-/

/-- Fixed tile side length (`tileSize = 256`, main.go line 37). -/
def tileSize : Nat := 256

/-- Wrap-around of Go 64-bit signed integer addition results: values are
reduced into the interval from negative 2 ^ 63 to 2 ^ 63 - 1. -/
def wrap64 (x : Int) : Int := (x + 2 ^ 63) % 2 ^ 64 - 2 ^ 63

/-- Embedding of `clampSeaLevel` (main.go lines 41-53):
round with Go semantics, namely truncated division in `((level + 5) / 10) * 10`
(the addition may wrap in 64-bit arithmetic; the division and the
multiplication cannot), then clamp into the closed interval from -1000 to
1000. -/
def clampSeaLevel (level : Int) : Int :=
  let rounded := (wrap64 (level + 5)).tdiv 10 * 10
  if rounded < -1000 then -1000
  else if rounded > 1000 then 1000
  else rounded

/-- Specification-side rounding, following the spec's words only: the multiple
of 10 nearest to `n`, ties rounded up. (Floor division of `n + 5` by 10 places
`n` in the bucket from `m - 5` included to `m + 5` excluded around each
multiple `m` of 10.) Used to compare the spec's description with
`clampSeaLevel`. -/
def specNearestTen (n : Int) : Int := (n + 5).fdiv 10 * 10

/-- Embedding of the terrarium decode (main.go line 177):
`elevation := int(rVal)*256 + int(gVal) + int(bVal)/256 - 32768`, with Go's
truncating division. Channel values come from image bytes, so they lie below
256. -/
def decodeElevation (r g b : Nat) : Int :=
  (r : Int) * 256 + (g : Int) + (b : Int).tdiv 256 - 32768

/-- Decoded source raster: the RGB channel bytes of the converted RGBA source
image, addressed by (row, column). Values on rows or columns at or beyond 256
are never read by the render loops. -/
def Raster : Type := Nat → Nat → Nat × Nat × Nat

/-- Output pixel buffer, addressed by (row, column); each cell is the four
RGBA bytes of that pixel. -/
def Buf : Type := Nat → Nat → List Nat

/-- Submerged color (main.go line 161): `blue := [4]uint8{0, 50, 120, 255}`. -/
def blue : List Nat := [0, 50, 120, 255]

/-- Transparent color (main.go line 162): all four bytes zero. -/
def transparent : List Nat := [0, 0, 0, 0]

/-- Fresh output image: `image.NewRGBA` zero-fills the pixel bytes
(main.go line 148), so every pixel starts as the transparent RGBA value. -/
def initialBuf : Buf := fun _ _ => transparent

/-- Per-pixel classification (main.go lines 179-185): the submerged color when
the decoded elevation is strictly below the sea level, transparent
otherwise. -/
def pixelColor (seaLevel : Int) (r g b : Nat) : List Nat :=
  if decodeElevation r g b < seaLevel then blue else transparent

/-- Write one pixel's RGBA bytes into the output buffer (main.go
lines 188-193). -/
def setPixel (buf : Buf) (y x : Nat) (c : List Nat) : Buf :=
  fun y' x' => if y' = y ∧ x' = x then c else buf y' x'

/-- One iteration of the inner column loop body (main.go lines 165-194) at
column `x` of row `y`: classify the source pixel and store the color. For the
256-by-256 source and output buffers the in-code byte-offset guards
(lines 171 and 188) always hold inside the loop bounds, so they do not appear
here. -/
def renderPixel (src : Raster) (seaLevel : Int) (buf : Buf) (y x : Nat) : Buf :=
  setPixel buf y x (pixelColor seaLevel (src y x).1 (src y x).2.1 (src y x).2.2)

/-- The inner column loop of the worker body (main.go line 165):
`for x := 0; x < tileSize; x++`. -/
def renderRowLoop (src : Raster) (seaLevel : Int) (y : Nat) (buf : Buf) : Buf :=
  (List.range tileSize).foldl (fun b x => renderPixel src seaLevel b y x) buf

/-- Rows visited by worker `w` of `numWorkers` (main.go lines 164 and 197):
the loop `for y := startRow; y < endRow && y < tileSize; y++` with
`startRow = w * rowsPerWorker` and `endRow = (w+1) * rowsPerWorker`, where
`rowsPerWorker = tileSize / numWorkers`. -/
def workerRows (numWorkers w : Nat) : List Nat :=
  List.range' (w * (tileSize / numWorkers))
    (min ((w + 1) * (tileSize / numWorkers)) tileSize - w * (tileSize / numWorkers))

/-- The row loop of one worker band (main.go lines 157-197). -/
def renderBandLoop (src : Raster) (seaLevel : Int) (numWorkers w : Nat) (buf : Buf) : Buf :=
  (workerRows numWorkers w).foldl (fun b y => renderRowLoop src seaLevel y b) buf

/-- The parallel render (main.go lines 150-201): `numWorkers` goroutines each
process one row band of the shared output buffer, then join. The goroutines
write disjoint rows (proved below), so the concurrent execution is modelled as
folding the bands in worker order over the fresh buffer. The source uses
`numWorkers := 8` (line 151). -/
def renderParallel (numWorkers : Nat) (src : Raster) (seaLevel : Int) : Buf :=
  (List.range numWorkers).foldl (fun b w => renderBandLoop src seaLevel numWorkers w b) initialBuf

/-- Value the render loops store at (row, column): the classification of the
source pixel there. -/
def pixelValue (src : Raster) (seaLevel : Int) (y x : Nat) : List Nat :=
  pixelColor seaLevel (src y x).1 (src y x).2.1 (src y x).2.2

/-- Pipeline error kinds, one per early-return site of `generateSeaLevelTile`
(main.go lines 98-126 and 205-209). -/
inductive PErr
  | reqFailed
  | fetchFailed
  | badStatus (code : Nat)
  | decodeFailed
  | encodeFailed
deriving DecidableEq

/-- Final state of the in-flight result channel `ch` (a `chan []byte` of
capacity one). On success the owner sends the tile bytes and closes the
channel (main.go lines 228-229); on every failure it only closes the channel
without sending (lines 100, 111, 117, 124, 207). -/
inductive ChanState
  | resolved (data : List Nat)
  | closedEmpty
deriving DecidableEq

/-- What a waiter's receive `data := <-ch` yields (main.go line 75): the sent
bytes, or Go's zero value for a byte slice (here the empty list, standing for
a nil slice) when the channel was closed without a value. -/
def waiterReceive : ChanState → List Nat
  | .resolved d => d
  | .closedEmpty => []

/-- A waiter's return `return data, nil` (main.go line 76): always a success,
carrying whatever the receive yielded. -/
def waiterReturn (c : ChanState) : Except PErr (List Nat) :=
  .ok (waiterReceive c)

/-- Outcome of one upstream retrieval attempt for a tile, covering the
fallible steps of main.go lines 98-126: request construction, the network
call, the HTTP status, and `png.Decode` of the body. -/
inductive UpstreamResult
  | reqError
  | netError
  | status (code : Nat) (body : Option Raster)

/-- Upstream oracle: what the remote elevation-tile host does for given
(z, x, y) path strings. -/
def Upstream : Type := String → String → String → UpstreamResult

/-- Encoder oracle standing for `png.Encode` (main.go lines 204-209): a
deterministic serialization of the output buffer that may fail. -/
def Encoder : Type := Buf → Option (List Nat)

/-- The mutable state of the global `cache` (main.go lines 18-34): the
key-to-bytes tile store and the set of in-flight keys. Both association-list
lookup and membership use exact string matching, as the Go maps do. -/
structure TileCacheState where
  tiles : List (String × List Nat)
  inFlight : List String
deriving DecidableEq

/-- Result of one call to `generateSeaLevelTile`: the returned
`([]byte, error)` pair, the cache state after the call, how many times the
upstream network fetch `client.Do` ran (main.go line 109), and what the call
did to its in-flight channel (`none` when the call was a cache hit or a
waiter and owned no channel). -/
structure GenResult where
  result : Except PErr (List Nat)
  state : TileCacheState
  fetches : Nat
  resolution : Option ChanState

/-- Cache key construction (main.go line 58):
`fmt.Sprintf("%d/%s/%s/%s", seaLevel, z, x, y)` over the raw path strings. -/
def mkCacheKey (seaLevel : Int) (z x y : String) : String :=
  toString seaLevel ++ "/" ++ z ++ "/" ++ x ++ "/" ++ y

/-- Embedding of `generateSeaLevelTile` (main.go lines 56-233) as one
sequential step over the cache state. In order, as in the source: cache
lookup (lines 61-67); in-flight check, where a waiter receives from the
existing channel — `conduitRead` says what that receive yields — and returns
it with a nil error (lines 70-77); registration of a fresh channel
(lines 79-82) with deferred deregistration (lines 85-89); the fetch, status
check and decode (lines 92-126); the parallel render (lines 148-201); encode
(lines 204-209); cache insert, send, and close (lines 219-229). -/
def generateSeaLevelTile (upstream : Upstream) (encodeTile : Encoder)
    (conduitRead : String → List Nat) (seaLevel : Int) (z x y : String)
    (st : TileCacheState) : GenResult :=
  match st.tiles.lookup (mkCacheKey seaLevel z x y) with
  | some data => ⟨.ok data, st, 0, none⟩
  | none =>
    if mkCacheKey seaLevel z x y ∈ st.inFlight then
      ⟨.ok (conduitRead (mkCacheKey seaLevel z x y)), st, 0, none⟩
    else
      match upstream z x y with
      | .reqError =>
        ⟨.error .reqFailed,
         ⟨st.tiles, (mkCacheKey seaLevel z x y :: st.inFlight).erase (mkCacheKey seaLevel z x y)⟩,
         0, some .closedEmpty⟩
      | .netError =>
        ⟨.error .fetchFailed,
         ⟨st.tiles, (mkCacheKey seaLevel z x y :: st.inFlight).erase (mkCacheKey seaLevel z x y)⟩,
         1, some .closedEmpty⟩
      | .status code body =>
        if code ≠ 200 then
          ⟨.error (.badStatus code),
           ⟨st.tiles, (mkCacheKey seaLevel z x y :: st.inFlight).erase (mkCacheKey seaLevel z x y)⟩,
           1, some .closedEmpty⟩
        else
          match body with
          | none =>
            ⟨.error .decodeFailed,
             ⟨st.tiles, (mkCacheKey seaLevel z x y :: st.inFlight).erase (mkCacheKey seaLevel z x y)⟩,
             1, some .closedEmpty⟩
          | some img =>
            match encodeTile (renderParallel 8 img seaLevel) with
            | none =>
              ⟨.error .encodeFailed,
               ⟨st.tiles, (mkCacheKey seaLevel z x y :: st.inFlight).erase (mkCacheKey seaLevel z x y)⟩,
               1, some .closedEmpty⟩
            | some tileData =>
              ⟨.ok tileData,
               ⟨(mkCacheKey seaLevel z x y, tileData) :: st.tiles,
                (mkCacheKey seaLevel z x y :: st.inFlight).erase (mkCacheKey seaLevel z x y)⟩,
               1, some (.resolved tileData)⟩

/-- Model of `strconv.Atoi` acceptance of one path segment, as `serveTile`
uses it for z, x and y (main.go lines 258-269): an optional leading sign
followed by at least one ASCII digit. Leading zeros are accepted, exactly as
`strconv.Atoi` accepts them. -/
def atoiAccepts (s : String) : Bool :=
  match s.data with
  | [] => false
  | c :: cs =>
    if c = '-' ∨ c = '+' then !cs.isEmpty && cs.all Char.isDigit
    else (c :: cs).all Char.isDigit

/-- Numeric value of an unsigned decimal digit string, as `strconv.Atoi`
computes it: which tile number a digit-string path segment names. -/
def atoiVal (s : String) : Nat :=
  s.data.foldl (fun n c => n * 10 + (c.toNat - 48)) 0

/-- Model of `serveTile`'s coordinate validation (main.go lines 258-269):
each of z, x, y must pass the `strconv.Atoi` parse; the parsed values are
discarded and the raw strings flow on into `generateSeaLevelTile`
(line 272). -/
def serveTileAccepts (z x y : String) : Bool :=
  atoiAccepts z && atoiAccepts x && atoiAccepts y

/-- Constant raster for witnesses: every pixel has the RGB bytes
(128, 0, 0), which decode to elevation 0. -/
def flatRaster : Raster := fun _ _ => (128, 0, 0)

/-- Concrete upstream oracle for witnesses: every tile exists and decodes to
`flatRaster`. -/
def upOk : Upstream := fun _ _ _ => .status 200 (some flatRaster)

/-- Concrete upstream oracle for witnesses: the network call always fails. -/
def upFail : Upstream := fun _ _ _ => .netError

/-- Concrete encoder oracle for witnesses: serialization always yields the
bytes [7]. -/
def encConst : Encoder := fun _ => some [7]

/-- Concrete conduit-read oracle for witnesses: a receive would yield the
empty byte slice. -/
def crNil : String → List Nat := fun _ => []

/-- The empty cache state at process start (main.go lines 31-34). -/
def emptyCache : TileCacheState := ⟨[], []⟩

theorem wrap64_eq_self (x : Int) (h1 : -(2 ^ 63) ≤ x) (h2 : x < 2 ^ 63) : wrap64 x = x := by
  unfold wrap64
  rw [Int.emod_eq_of_lt (by omega) (by omega)]
  omega

theorem foldl_renderPixel_apply (src : Raster) (sl : Int) (yr : Nat) (l : List Nat)
    (buf : Buf) (y' x' : Nat) :
    (l.foldl (fun b x => renderPixel src sl b yr x) buf) y' x' =
      if y' = yr ∧ x' ∈ l then pixelValue src sl y' x' else buf y' x' := by
  induction l generalizing buf with
  | nil => simp
  | cons a t ih =>
    simp only [List.foldl_cons, ih, List.mem_cons]
    by_cases h1 : y' = yr
    · by_cases h2 : x' ∈ t
      · simp [h1, h2]
      · by_cases h3 : x' = a
        · subst h3; subst h1
          simp [h2, renderPixel, setPixel, pixelValue]
        · simp [h1, h2, h3, renderPixel, setPixel]
    · simp [h1, renderPixel, setPixel]

theorem renderRowLoop_apply (src : Raster) (sl : Int) (yr : Nat) (buf : Buf) (y' x' : Nat) :
    renderRowLoop src sl yr buf y' x' =
      if y' = yr ∧ x' < tileSize then pixelValue src sl y' x' else buf y' x' := by
  simp [renderRowLoop, foldl_renderPixel_apply, List.mem_range]

theorem foldl_renderRow_apply (src : Raster) (sl : Int) (rows : List Nat)
    (buf : Buf) (y' x' : Nat) :
    (rows.foldl (fun b y => renderRowLoop src sl y b) buf) y' x' =
      if y' ∈ rows ∧ x' < tileSize then pixelValue src sl y' x' else buf y' x' := by
  induction rows generalizing buf with
  | nil => simp
  | cons a t ih =>
    simp only [List.foldl_cons, ih]
    have hrow := renderRowLoop_apply src sl a buf y' x'
    by_cases hx : x' < tileSize
    · by_cases h2 : y' ∈ t
      · rw [if_pos ⟨h2, hx⟩, if_pos ⟨List.mem_cons_of_mem a h2, hx⟩]
      · by_cases h3 : y' = a
        · rw [if_neg (fun hc => h2 hc.1), hrow, if_pos ⟨h3, hx⟩,
              if_pos ⟨by rw [h3]; exact List.mem_cons_self a t, hx⟩]
        · rw [if_neg (fun hc => h2 hc.1), hrow, if_neg (fun hc => h3 hc.1),
              if_neg (fun hc => (List.mem_cons.mp hc.1).elim h3 h2)]
    · rw [if_neg (fun hc => hx hc.2), hrow, if_neg (fun hc => hx hc.2),
          if_neg (fun hc => hx hc.2)]

theorem foldl_renderBand_apply (src : Raster) (sl : Int) (nw : Nat) (ws : List Nat)
    (buf : Buf) (y' x' : Nat) :
    (ws.foldl (fun b w => renderBandLoop src sl nw w b) buf) y' x' =
      if (∃ w ∈ ws, y' ∈ workerRows nw w) ∧ x' < tileSize then pixelValue src sl y' x'
      else buf y' x' := by
  induction ws generalizing buf with
  | nil => simp
  | cons a t ih =>
    simp only [List.foldl_cons, ih]
    have hmem : (∃ w ∈ a :: t, y' ∈ workerRows nw w) ↔
        (y' ∈ workerRows nw a ∨ ∃ w ∈ t, y' ∈ workerRows nw w) := by
      constructor
      · rintro ⟨w, hw, hy⟩
        rcases List.mem_cons.mp hw with h | h
        · exact Or.inl (h ▸ hy)
        · exact Or.inr ⟨w, h, hy⟩
      · rintro (h | ⟨w, hw, hy⟩)
        · exact ⟨a, List.mem_cons_self a t, h⟩
        · exact ⟨w, List.mem_cons_of_mem a hw, hy⟩
    have hband : renderBandLoop src sl nw a buf y' x' =
        if y' ∈ workerRows nw a ∧ x' < tileSize then pixelValue src sl y' x'
        else buf y' x' := by
      simp [renderBandLoop, foldl_renderRow_apply]
    by_cases hx : x' < tileSize
    · by_cases h3 : y' ∈ workerRows nw a
      · by_cases h2 : ∃ w ∈ t, y' ∈ workerRows nw w
        · rw [if_pos ⟨h2, hx⟩, if_pos ⟨hmem.mpr (Or.inl h3), hx⟩]
        · rw [if_neg (fun hc => h2 hc.1), hband, if_pos ⟨h3, hx⟩,
              if_pos ⟨hmem.mpr (Or.inl h3), hx⟩]
      · by_cases h2 : ∃ w ∈ t, y' ∈ workerRows nw w
        · rw [if_pos ⟨h2, hx⟩, if_pos ⟨hmem.mpr (Or.inr h2), hx⟩]
        · rw [if_neg (fun hc => h2 hc.1), hband, if_neg (fun hc => h3 hc.1),
              if_neg (fun hc => (hmem.mp hc.1).elim h3 h2)]
    · rw [if_neg (fun hc => hx hc.2), hband, if_neg (fun hc => hx hc.2),
          if_neg (fun hc => hx hc.2)]

theorem mem_workerRows_one (yr : Nat) :
    (∃ w ∈ List.range 1, yr ∈ workerRows 1 w) ↔ yr < 256 := by
  simp [workerRows, tileSize, List.mem_range'_1]

theorem mem_workerRows_eight (yr : Nat) :
    (∃ w ∈ List.range 8, yr ∈ workerRows 8 w) ↔ yr < 256 := by
  constructor
  · rintro ⟨w, hw, hy⟩
    simp only [List.mem_range] at hw
    simp only [workerRows, tileSize, List.mem_range'_1] at hy
    omega
  · intro h
    refine ⟨yr / 32, ?_, ?_⟩
    · simp only [List.mem_range]; omega
    · simp only [workerRows, tileSize, List.mem_range'_1]; omega

theorem renderParallel_one_apply (src : Raster) (sl : Int) (y x : Nat) :
    renderParallel 1 src sl y x =
      if y < 256 ∧ x < 256 then pixelValue src sl y x else transparent := by
  rw [renderParallel, foldl_renderBand_apply]
  simp only [mem_workerRows_one, tileSize, initialBuf]

theorem renderParallel_eight_apply (src : Raster) (sl : Int) (y x : Nat) :
    renderParallel 8 src sl y x =
      if y < 256 ∧ x < 256 then pixelValue src sl y x else transparent := by
  rw [renderParallel, foldl_renderBand_apply]
  simp only [mem_workerRows_eight, tileSize, initialBuf]

theorem generateSeaLevelTile_spec (up : Upstream) (enc : Encoder) (cr : String → List Nat)
    (sl : Int) (z x y : String) (st : TileCacheState) :
    (∃ d, st.tiles.lookup (mkCacheKey sl z x y) = some d ∧
      generateSeaLevelTile up enc cr sl z x y st = ⟨.ok d, st, 0, none⟩) ∨
    (st.tiles.lookup (mkCacheKey sl z x y) = none ∧ mkCacheKey sl z x y ∈ st.inFlight ∧
      generateSeaLevelTile up enc cr sl z x y st =
        ⟨.ok (cr (mkCacheKey sl z x y)), st, 0, none⟩) ∨
    (st.tiles.lookup (mkCacheKey sl z x y) = none ∧ mkCacheKey sl z x y ∉ st.inFlight ∧
      ((∃ e fe, generateSeaLevelTile up enc cr sl z x y st =
          ⟨.error e, st, fe, some .closedEmpty⟩) ∨
       (∃ d, generateSeaLevelTile up enc cr sl z x y st =
          ⟨.ok d, ⟨(mkCacheKey sl z x y, d) :: st.tiles, st.inFlight⟩,
           1, some (.resolved d)⟩))) := by
  have her : (mkCacheKey sl z x y :: st.inFlight).erase (mkCacheKey sl z x y)
      = st.inFlight := List.erase_cons_head _ _
  rcases hl : st.tiles.lookup (mkCacheKey sl z x y) with _ | d
  · by_cases hm : mkCacheKey sl z x y ∈ st.inFlight
    · exact Or.inr (Or.inl ⟨rfl, hm, by simp [generateSeaLevelTile, hl, hm]⟩)
    · refine Or.inr (Or.inr ⟨rfl, hm, ?_⟩)
      rcases hu : up z x y with _ | _ | ⟨code, body⟩
      · exact Or.inl ⟨.reqFailed, 0, by simp [generateSeaLevelTile, hl, hm, hu, her]⟩
      · exact Or.inl ⟨.fetchFailed, 1, by simp [generateSeaLevelTile, hl, hm, hu, her]⟩
      · by_cases hc : code = 200
        · rcases hb : body with _ | img
          · exact Or.inl ⟨.decodeFailed, 1,
              by simp [generateSeaLevelTile, hl, hm, hu, hc, hb, her]⟩
          · rcases he : enc (renderParallel 8 img sl) with _ | tileData
            · exact Or.inl ⟨.encodeFailed, 1,
                by simp [generateSeaLevelTile, hl, hm, hu, hc, hb, he, her]⟩
            · exact Or.inr ⟨tileData,
                by simp [generateSeaLevelTile, hl, hm, hu, hc, hb, he, her]⟩
        · exact Or.inl ⟨.badStatus code, 1,
            by simp [generateSeaLevelTile, hl, hm, hu, hc, her]⟩
  · exact Or.inl ⟨d, rfl, by simp [generateSeaLevelTile, hl]⟩

theorem lookup_cons_self (tiles : List (String × List Nat)) (k : String) (v : List Nat) :
    ((k, v) :: tiles).lookup k = some v := by
  simp [List.lookup]

/-- C1: for a key whose pipeline fails, the code does NOT surface the failure
to Waiters. The Owner returns the error, but it resolves the shared channel by
closing it without a value, so a Waiter's receive yields the zero-value byte
slice and the Waiter returns it with a nil error: an empty successful result,
exactly what the claim rules out. Shown at the concrete failing input of a
network error on key 0/1/2/3. -/
theorem C1_waiter_sees_empty_success :
    (generateSeaLevelTile upFail encConst crNil 0 "1" "2" "3" emptyCache).result
      = Except.error PErr.fetchFailed ∧
    (generateSeaLevelTile upFail encConst crNil 0 "1" "2" "3" emptyCache).resolution
      = some ChanState.closedEmpty ∧
    waiterReturn ChanState.closedEmpty = Except.ok [] := ⟨rfl, rfl, rfl⟩

/-- C2: under concurrent demand for one uncached key the Owner performs the
single fetch and, on success, Owner and Waiters all receive the same bytes;
but when the pipeline fails the callers do not all receive the same failure
indication: the Owner's result is an error while a Waiter's result is a
successful empty byte slice, refuting the claim's failure clause at the
concrete input of a network error on key 0/4/5/6. -/
theorem C2_failure_indications_differ :
    (generateSeaLevelTile upOk encConst crNil 0 "4" "5" "6" emptyCache).result
      = Except.ok [7] ∧
    (generateSeaLevelTile upOk encConst crNil 0 "4" "5" "6" emptyCache).resolution
      = some (ChanState.resolved [7]) ∧
    waiterReturn (ChanState.resolved [7]) = Except.ok [7] ∧
    (generateSeaLevelTile upFail encConst crNil 0 "4" "5" "6" emptyCache).fetches = 1 ∧
    (generateSeaLevelTile upFail encConst crNil 0 "4" "5" "6" emptyCache).result
      = Except.error PErr.fetchFailed ∧
    (generateSeaLevelTile upFail encConst crNil 0 "4" "5" "6" emptyCache).resolution
      = some ChanState.closedEmpty ∧
    (waiterReturn ChanState.closedEmpty).isOk = true ∧
    (generateSeaLevelTile upFail encConst crNil 0 "4" "5" "6" emptyCache).result.isOk
      = false := ⟨rfl, rfl, rfl, rfl, rfl, rfl, rfl, rfl⟩

/-- C3 counterexample: `clampSeaLevel` does not return the multiple of 10
nearest to its argument for every integer. At -6 it returns 0, yet -10 is a
multiple of 10 inside the clamp range strictly closer to -6 than 0 is. -/
theorem C3_counterexample :
    clampSeaLevel (-6) = 0 ∧ (10 : Int) ∣ -10 ∧ (-1000 : Int) ≤ -10 ∧
    (-10 : Int) ≤ 1000 ∧ |(-6 : Int) - (-10)| < |(-6 : Int) - clampSeaLevel (-6)| := by
  refine ⟨by decide, by decide, by decide, by decide, by decide⟩

/-- C3 amended: for inputs from -5 up to 2 ^ 63 - 6 (where the 64-bit
addition of 5 cannot wrap and the truncating division agrees with floor
division) `clampSeaLevel` returns the multiple of 10 nearest to `n` with ties
rounded up, clamped into the closed range from -1000 to 1000; `specNearestTen`
is that nearest multiple: divisible by 10 and within distance 5 below or 4
above. For inputs below -5 the Go truncating division instead rounds toward
zero (see the counterexample at -6). -/
theorem C3_amended (n : Int) (h1 : -5 ≤ n) (h2 : n ≤ 2 ^ 63 - 6) :
    clampSeaLevel n = max (-1000) (min 1000 (specNearestTen n)) ∧
    10 ∣ specNearestTen n ∧ specNearestTen n - 5 ≤ n ∧ n ≤ specNearestTen n + 4 := by
  simp only [clampSeaLevel, specNearestTen]
  rw [wrap64_eq_self _ (by omega) (by omega)]
  rw [Int.tdiv_eq_ediv (by omega) (by omega), Int.fdiv_eq_ediv _ (by omega)]
  refine ⟨?_, dvd_mul_left 10 _, by omega, by omega⟩
  split_ifs <;> omega

/-- Witness for C3 amended at the concrete input 7. -/
theorem C3_amended_witness :
    clampSeaLevel 7 = max (-1000) (min 1000 (specNearestTen 7)) ∧
    10 ∣ specNearestTen 7 ∧ specNearestTen 7 - 5 ≤ 7 ∧ (7 : Int) ≤ specNearestTen 7 + 4 :=
  C3_amended 7 (by decide) (by decide)

/-- C4: for every integer, the normalizer's result is a multiple of 10 inside
the closed range from -1000 to 1000, and the four quoted values hold:
normalize(4) = 0, normalize(5) = 10, normalize(-1005) = -1000,
normalize(1004) = 1000. -/
theorem C4_normalizer_contract :
    (∀ n : Int, 10 ∣ clampSeaLevel n ∧ -1000 ≤ clampSeaLevel n ∧ clampSeaLevel n ≤ 1000) ∧
    clampSeaLevel 4 = 0 ∧ clampSeaLevel 5 = 10 ∧
    clampSeaLevel (-1005) = -1000 ∧ clampSeaLevel 1004 = 1000 := by
  refine ⟨fun n => ?_, by decide, by decide, by decide, by decide⟩
  simp only [clampSeaLevel]
  split
  · exact ⟨by decide, by omega⟩
  · split
    · exact ⟨by decide, by omega⟩
    · exact ⟨dvd_mul_left 10 _, by omega, by omega⟩

/-- C5: for 8-bit channel values the decoded elevation is
R * 256 + G + B / 256 - 32768 with truncating division; since B is below 256
its quotient by 256 is 0; and the two quoted pixels decode to -32640 and 0. -/
theorem C5_decode_formula (r g b : Nat) (h1 : r < 256) (h2 : g < 256) (h3 : b < 256) :
    decodeElevation r g b = (r : Int) * 256 + (g : Int) + (b : Int).tdiv 256 - 32768 ∧
    decodeElevation r g b = (r : Int) * 256 + (g : Int) - 32768 ∧
    -32768 ≤ decodeElevation r g b ∧ decodeElevation r g b ≤ 32767 ∧
    decodeElevation 0 128 0 = -32640 ∧ decodeElevation 128 0 0 = 0 := by
  have hb0 : (b : Int).tdiv 256 = 0 := by
    rw [Int.tdiv_eq_ediv (by omega) (by omega)]
    omega
  refine ⟨rfl, ?_, ?_, ?_, by decide, by decide⟩ <;>
    simp only [decodeElevation, hb0] <;> omega

/-- Witness for C5 at the concrete pixel (0, 128, 0). -/
theorem C5_decode_formula_witness :
    decodeElevation 0 128 0 = ((0 : Nat) : Int) * 256 + ((128 : Nat) : Int)
        + ((0 : Nat) : Int).tdiv 256 - 32768 ∧
    decodeElevation 0 128 0 = ((0 : Nat) : Int) * 256 + ((128 : Nat) : Int) - 32768 ∧
    -32768 ≤ decodeElevation 0 128 0 ∧ decodeElevation 0 128 0 ≤ 32767 ∧
    decodeElevation 0 128 0 = -32640 ∧ decodeElevation 128 0 0 = 0 :=
  C5_decode_formula 0 128 0 (by decide) (by decide) (by decide)

/-- C6: a pixel of the rendered tile carries the fixed opaque submerged color
exactly when its decoded elevation is strictly below the threshold, and a
pixel whose elevation equals the threshold is fully transparent. -/
theorem C6_strict_boundary (src : Raster) (sl : Int) (y x : Nat)
    (hy : y < tileSize) (hx : x < tileSize) :
    (renderParallel 8 src sl y x = blue ↔
      decodeElevation (src y x).1 (src y x).2.1 (src y x).2.2 < sl) ∧
    (decodeElevation (src y x).1 (src y x).2.1 (src y x).2.2 = sl →
      renderParallel 8 src sl y x = transparent) := by
  rw [renderParallel_eight_apply,
    if_pos ⟨by simpa [tileSize] using hy, by simpa [tileSize] using hx⟩]
  unfold pixelValue pixelColor
  constructor
  · by_cases hlt : decodeElevation (src y x).1 (src y x).2.1 (src y x).2.2 < sl
    · simp [hlt]
    · simp [hlt, blue, transparent]
  · intro he
    rw [if_neg (by omega)]

/-- Witness for C6 at row 0, column 0 of the constant elevation-0 raster with
threshold 0 (the boundary case itself). -/
theorem C6_strict_boundary_witness :
    (renderParallel 8 flatRaster 0 0 0 = blue ↔
      decodeElevation (flatRaster 0 0).1 (flatRaster 0 0).2.1 (flatRaster 0 0).2.2 < 0) ∧
    (decodeElevation (flatRaster 0 0).1 (flatRaster 0 0).2.1 (flatRaster 0 0).2.2 = 0 →
      renderParallel 8 flatRaster 0 0 0 = transparent) :=
  C6_strict_boundary flatRaster 0 0 0 (by decide) (by decide)

set_option maxRecDepth 4000 in
/-- C7: the eight worker bands are the contiguous 32-row ranges starting at
0, 32, ..., 224; they are pairwise disjoint and together cover each of the
256 rows exactly once; and rendering with one worker band produces pixel-for
pixel the same output as rendering with eight worker bands, on every source
and threshold. -/
theorem C7_band_partition_and_equivalence :
    (List.range 8).map (workerRows 8) =
      [List.range' 0 32, List.range' 32 32, List.range' 64 32, List.range' 96 32,
       List.range' 128 32, List.range' 160 32, List.range' 192 32, List.range' 224 32] ∧
    ((List.range 8).map (workerRows 8)).Pairwise (fun l1 l2 => ∀ a ∈ l1, a ∉ l2) ∧
    ((List.range 8).map (workerRows 8)).flatten = List.range tileSize ∧
    ∀ (src : Raster) (sl : Int) (y x : Nat),
      renderParallel 1 src sl y x = renderParallel 8 src sl y x := by
  refine ⟨by decide, by decide, by decide, ?_⟩
  intro src sl y x
  rw [renderParallel_one_apply, renderParallel_eight_apply]

/-- C8: once a request for a key has succeeded, a second sequential request
for the same key performs no upstream fetch and returns the same bytes. -/
theorem C8_cache_idempotent (up : Upstream) (enc : Encoder) (cr : String → List Nat)
    (sl : Int) (z x y : String) (st : TileCacheState) (d : List Nat)
    (h : (generateSeaLevelTile up enc cr sl z x y st).result = .ok d) :
    (generateSeaLevelTile up enc cr sl z x y
      (generateSeaLevelTile up enc cr sl z x y st).state).fetches = 0 ∧
    (generateSeaLevelTile up enc cr sl z x y
      (generateSeaLevelTile up enc cr sl z x y st).state).result = .ok d := by
  rcases generateSeaLevelTile_spec up enc cr sl z x y st with
    ⟨d0, hl, hr⟩ | ⟨hl, hm, hr⟩ | ⟨hl, hm, ⟨e, fe, hr⟩ | ⟨d0, hr⟩⟩
  · rw [hr] at h
    simp only [Except.ok.injEq] at h
    subst h
    simp [hr]
  · rw [hr] at h
    simp only [Except.ok.injEq] at h
    subst h
    simp [hr]
  · rw [hr] at h
    simp at h
  · rw [hr] at h
    simp only [Except.ok.injEq] at h
    subst h
    simp only [hr]
    simp [generateSeaLevelTile, lookup_cons_self]

/-- Witness for C8: a fresh cache, a successful upstream and key 0/1/2/3. -/
theorem C8_cache_idempotent_witness :
    (generateSeaLevelTile upOk encConst crNil 0 "1" "2" "3"
      (generateSeaLevelTile upOk encConst crNil 0 "1" "2" "3" emptyCache).state).fetches = 0 ∧
    (generateSeaLevelTile upOk encConst crNil 0 "1" "2" "3"
      (generateSeaLevelTile upOk encConst crNil 0 "1" "2" "3" emptyCache).state).result
      = .ok [7] :=
  C8_cache_idempotent upOk encConst crNil 0 "1" "2" "3" emptyCache [7] rfl

/-- C9: when the pipeline fails at any stage, the call leaves the cache state
exactly as it found it — no tile entry is written and the in-flight handle is
deregistered — and a failing call can only have been an owner run, so its key
had no cache entry and no in-flight handle; a subsequent request therefore
starts a fresh pipeline. -/
theorem C9_failure_leaves_no_trace (up : Upstream) (enc : Encoder) (cr : String → List Nat)
    (sl : Int) (z x y : String) (st : TileCacheState) (e : PErr)
    (h : (generateSeaLevelTile up enc cr sl z x y st).result = .error e) :
    (generateSeaLevelTile up enc cr sl z x y st).state = st ∧
    st.tiles.lookup (mkCacheKey sl z x y) = none ∧
    mkCacheKey sl z x y ∉ st.inFlight := by
  rcases generateSeaLevelTile_spec up enc cr sl z x y st with
    ⟨d0, hl, hr⟩ | ⟨hl, hm, hr⟩ | ⟨hl, hm, ⟨e', fe, hr⟩ | ⟨d0, hr⟩⟩
  · rw [hr] at h; simp at h
  · rw [hr] at h; simp at h
  · exact ⟨by rw [hr], hl, hm⟩
  · rw [hr] at h; simp at h

/-- Witness for C9: a failing network fetch for key 0/9/9/9 on the empty
cache. -/
theorem C9_failure_leaves_no_trace_witness :
    (generateSeaLevelTile upFail encConst crNil 0 "9" "9" "9" emptyCache).state = emptyCache ∧
    emptyCache.tiles.lookup (mkCacheKey 0 "9" "9" "9") = none ∧
    mkCacheKey 0 "9" "9" "9" ∉ emptyCache.inFlight :=
  C9_failure_leaves_no_trace upFail encConst crNil 0 "9" "9" "9" emptyCache PErr.fetchFailed rfl

/-- C10: the cache key embeds the raw z, x, y path strings. The digit strings
"7" and "07" both pass `serveTile` validation and name tile number 7, yet
they build different cache keys; two sequential requests differing only in
that digit string each perform their own upstream fetch and populate two
separate cache entries holding the two keys. -/
theorem C10_raw_string_cache_keys :
    (mkCacheKey 0 "1" "7" "3" == mkCacheKey 0 "1" "07" "3") = false ∧
    serveTileAccepts "1" "7" "3" = true ∧
    serveTileAccepts "1" "07" "3" = true ∧
    atoiVal "7" = 7 ∧
    atoiVal "07" = 7 ∧
    (generateSeaLevelTile upOk encConst crNil 0 "1" "7" "3" emptyCache).fetches = 1 ∧
    (generateSeaLevelTile upOk encConst crNil 0 "1" "07" "3"
      (generateSeaLevelTile upOk encConst crNil 0 "1" "7" "3" emptyCache).state).fetches = 1 ∧
    (generateSeaLevelTile upOk encConst crNil 0 "1" "07" "3"
      (generateSeaLevelTile upOk encConst crNil 0 "1" "7" "3" emptyCache).state).state.tiles.lookup
        (mkCacheKey 0 "1" "7" "3") = some [7] ∧
    (generateSeaLevelTile upOk encConst crNil 0 "1" "07" "3"
      (generateSeaLevelTile upOk encConst crNil 0 "1" "7" "3" emptyCache).state).state.tiles.lookup
        (mkCacheKey 0 "1" "07" "3") = some [7] ∧
    (generateSeaLevelTile upOk encConst crNil 0 "1" "07" "3"
      (generateSeaLevelTile upOk encConst crNil 0 "1" "7" "3" emptyCache).state).state.tiles.length
      = 2 := by
  refine ⟨rfl, by decide, by decide, by decide, by decide, rfl, rfl, rfl, rfl, rfl⟩
